import Mathlib

/-!
Verification of the `fldd` utility (src/fldd/main.c): a shared-library
dependency resolver that parses ELF images directly.

The development shallowly embeds the C source:

* the singly linked `Storage` list (`storage_find`, `storage_add`,
  `storage_print`) becomes a `List String` with the same operations;
* `copy_libs_for_exe`'s ELF walk becomes a byte-level interpreter over the
  mapped file, modelled as a `List Nat` of bytes, with an explicit trace of
  every byte address the C code dereferences and of every diagnostic it
  prints;
* the mutual recursion `copy_libs_for_lib` / `copy_libs_for_exe` becomes a
  fuel-indexed interpreter over an abstract file system (the per-file ELF
  parse is abstracted to the triple of interpreter paths, RPATH/RUNPATH
  directories and NEEDED names it yields, in the order the C code consumes
  them);
* `main`'s argument handling becomes a pure function from the argument
  vector and an environment record to an exit/output record.
-/

/-! ## Storage lists (main.c lines 58-95)

The C `Storage` singly linked list of strings, head = most recently added.
-/

/-- `storage_find` (main.c 65-73): walk the list, return true on the first
`strcmp == 0` hit. -/
def storage_find : List String → String → Bool
  | [], _ => false
  | n :: t, name => if n = name then true else storage_find t name

/-- `storage_add` (main.c 75-87): if the name is already present do nothing,
otherwise prepend a fresh node (the new head is the most recent entry). -/
def storage_add (head : List String) (name : String) : List String :=
  if storage_find head name then head else name :: head

/-- `storage_print` (main.c 90-95): emit each entry followed by a newline,
walking from the head (most recently added first). -/
def storage_print : List String → String
  | [] => ""
  | n :: t => n ++ "\n" ++ storage_print t

/-! ## Byte-level model of the mapped ELF image

`copy_libs_for_exe` (main.c 106-215) memory-maps the file and walks it with
raw pointer arithmetic.  We model the mapped file as a `List Nat` of byte
values and pointers as byte offsets from `base` (so `base = 0` and
`end = size = f.length`).  `byteAt` returns 0 beyond the file's length,
mirroring the kernel's zero fill of the final partial page; the point of the
model is therefore not what such a read returns but that it happened at all,
which the interpreter records in an explicit trace of read addresses.
-/

/-- The byte at offset `i` of the mapped file (0 beyond the end, as in the
zero-filled tail of the last mapped page). -/
def byteAt (f : List Nat) (i : Nat) : Nat := f.getD i 0

/-- Little-endian unsigned read of `k` bytes at offset `off`, as the C code's
field accesses on an x86-64 image. -/
def rdN (f : List Nat) (off : Nat) : Nat → Nat
  | 0 => 0
  | k + 1 => byteAt f off + 256 * rdN f (off + 1) k

/-- The byte addresses touched by a `k`-byte field read at `off`. -/
def rdAddrs (off k : Nat) : List Nat := (List.range k).map (off + ·)

/-- Length of the NUL-terminated string starting at offset `p` (not counting
the terminator). -/
def strLen (f : List Nat) (p : Nat) : Nat :=
  ((f.drop p).takeWhile (fun b => b ≠ 0)).length

/-- The string starting at offset `p`, read up to the first NUL byte, as
`strdup`/`strcmp` consume it inside `storage_add`. -/
def readStr (f : List Nat) (p : Nat) : String :=
  String.mk (((f.drop p).takeWhile (fun b => b ≠ 0)).map Char.ofNat)

/-- The byte addresses a C string read at `p` touches: every byte of the
string plus its NUL terminator. -/
def strAddrs (f : List Nat) (p : Nat) : List Nat :=
  (List.range (strLen f p + 1)).map (p + ·)

/-! Elf64 structure layout (`__LP64__` branch of main.c 31-35):
`sizeof(Elf64_Ehdr) = 64`, `sizeof(Elf64_Phdr) = 56`,
`sizeof(Elf64_Shdr) = 64`, `sizeof(Elf64_Dyn) = 16`, with the usual field
offsets. -/

def e_shoff (f : List Nat) : Nat := rdN f 40 8
def e_phnum (f : List Nat) : Nat := rdN f 56 2
def e_shnum (f : List Nat) : Nat := rdN f 60 2
def p_type (f : List Nat) (p : Nat) : Nat := rdN f p 4
def p_offset (f : List Nat) (p : Nat) : Nat := rdN f (p + 8) 8
def sh_type (f : List Nat) (p : Nat) : Nat := rdN f (p + 4) 4
def sh_offset (f : List Nat) (p : Nat) : Nat := rdN f (p + 24) 8
def sh_size (f : List Nat) (p : Nat) : Nat := rdN f (p + 32) 8
def d_tag (f : List Nat) (p : Nat) : Nat := rdN f p 8
def d_ptr (f : List Nat) (p : Nat) : Nat := rdN f (p + 8) 8

def PT_INTERP : Nat := 3
def SHT_NULL : Nat := 0
def SHT_STRTAB : Nat := 3
def SHT_DYNAMIC : Nat := 6
def DT_NEEDED : Nat := 1
def DT_RPATH : Nat := 15
def DT_RUNPATH : Nat := 29

/-- `strncmp(ebuf->e_ident, ELFMAG, SELFMAG) == 0` (main.c 126):
the first four bytes are `\x7f 'E' 'L' 'F'`. -/
def checkMagic (f : List Nat) : Bool :=
  decide (byteAt f 0 = 0x7f ∧ byteAt f 1 = 0x45 ∧
          byteAt f 2 = 0x4c ∧ byteAt f 3 = 0x46)

/-- How many bytes `strncmp` against the ELF magic actually touches: it stops
at the first mismatching byte. -/
def magicCmpLen (f : List Nat) : Nat :=
  if byteAt f 0 ≠ 0x7f then 1
  else if byteAt f 1 ≠ 0x45 then 2
  else if byteAt f 2 ≠ 0x4c then 3
  else 4

/-- The diagnostics the program can print for one file.  Each constructor is
one `fprintf(stderr, ...)`/`perror` site of main.c; in the C code every
`Warning ...` site is guarded by `if (!arg_quiet)` while the
`perror("copy libs")` at main.c 209 is not (see `emittedDiags`). -/
inductive Diag where
  | warnOpen (exe : String)
  | warnNotElf (exe : String)
  | warnBadPtr (field exe : String)
  | warnNotFound (lib : String)
  | perrorCopyLibs
deriving DecidableEq, Repr

/-- True exactly for the unguarded `perror("copy libs")` diagnostic. -/
def isPerror : Diag → Bool
  | Diag.perrorCopyLibs => true
  | _ => false

/-- The side effects of one file scan that feed the resolver: additions to
the Dependency Set (`storage_add(&libs, ...)`), additions to the Search-Path
Registry (`storage_add(&lib_paths, ...)`), and recursive resolutions
(`copy_libs_for_lib(...)`), in program order. -/
inductive Ev where
  | addLib (s : String)
  | addPath (s : String)
  | needLib (s : String)
deriving DecidableEq, Repr

/-- Interpreter state of one `copy_libs_for_exe` scan: the events it emitted,
the diagnostics it collected, and the trace of byte addresses it read from
the mapped image. -/
structure ScanSt where
  evs : List Ev
  diags : List Diag
  reads : List Nat
deriving DecidableEq, Repr

def ScanSt.init : ScanSt := ⟨[], [], []⟩

/-- Record a `k`-byte field read at offset `off`. -/
def logRd (st : ScanSt) (off k : Nat) : ScanSt :=
  { st with reads := st.reads ++ rdAddrs off k }

/-- Record a C-string read at offset `p`. -/
def logStr (st : ScanSt) (f : List Nat) (p : Nat) : ScanSt :=
  { st with reads := st.reads ++ strAddrs f p }

/-- `ptr_ok` (main.c 97-104): a pointer is in bounds iff
`base <= ptr && ptr <= end`; on failure the warning diagnostic is collected
(its printing is gated on quiet mode by `emittedDiags`). -/
def ptr_ok (st : ScanSt) (ptr base endp : Nat) (field exe : String) :
    Bool × ScanSt :=
  if base ≤ ptr ∧ ptr ≤ endp then (true, st)
  else (false, { st with diags := st.diags ++ [Diag.warnBadPtr field exe] })

/-- The program-header walk (main.c 132-144): up to `e_phnum` entries
starting at `base + sizeof(Elf_Ehdr) = 64`, each entry 56 bytes; a failing
`ptr_ok(pbuf, ...)` ends the loop (processing continues with the section
headers); `PT_INTERP` entries have `base + p_offset` validated and the
interpreter path added to the Dependency Set, a failing validation being
`goto close` (the `Bool` result is false). -/
def phdrLoop (f : List Nat) (endp : Nat) (exe : String) :
    Nat → Nat → ScanSt → Bool × ScanSt
  | 0, _, st => (true, st)
  | n + 1, pbuf, st =>
    match ptr_ok st pbuf 0 endp "pbuf" exe with
    | (false, st) => (true, st)
    | (true, st) =>
      let st := logRd st pbuf 4
      if p_type f pbuf = PT_INTERP then
        let st := logRd st (pbuf + 8) 8
        match ptr_ok st (p_offset f pbuf) 0 endp "base + pbuf->p_offset" exe with
        | (false, st) => (false, st)
        | (true, st) =>
          let st := logStr st f (p_offset f pbuf)
          let st := { st with evs := st.evs ++ [Ev.addLib (readStr f (p_offset f pbuf))] }
          phdrLoop f endp exe n (pbuf + 56) st
      else phdrLoop f endp exe n (pbuf + 56) st

/-- Outcome of the string-table search (main.c 150-163). -/
inductive StrtabOut where
  | found (strbase pos : Nat)
  | notFound
  | abortClose
deriving DecidableEq, Repr

/-- First section-header scan (main.c 150-161): find the first `SHT_STRTAB`
section.  The loop `break`s with `sbuf` still pointing at that section
header, which `StrtabOut.found` records as `pos`; a failing
`ptr_ok(strbase, ...)` is `goto close`; running out of sections (or a failing
`ptr_ok(sbuf, ...)`) leaves `strbase == NULL`. -/
def strtabLoop (f : List Nat) (endp : Nat) (exe : String) :
    Nat → Nat → ScanSt → ScanSt × StrtabOut
  | 0, _, st => (st, StrtabOut.notFound)
  | n + 1, sbuf, st =>
    match ptr_ok st sbuf 0 endp "sbuf" exe with
    | (false, st) => (st, StrtabOut.notFound)
    | (true, st) =>
      let st := logRd st (sbuf + 4) 4
      if sh_type f sbuf = SHT_STRTAB then
        let st := logRd st (sbuf + 24) 8
        match ptr_ok st (sh_offset f sbuf) 0 endp "strbase" exe with
        | (false, st) => (st, StrtabOut.abortClose)
        | (true, st) => (st, StrtabOut.found (sh_offset f sbuf) sbuf)
      else strtabLoop f endp exe n (sbuf + 64) st

/-- First pass over the dynamic section's entries (main.c 178-189): the C
loop `while (size >= sizeof(*dbuf) && ptr_ok(dbuf, ...))` steps `dbuf` by 16
while decrementing `size` by 16, i.e. it runs at most `sh_size / 16`
iterations, which is the structural fuel `k` here (the caller passes
`sh_size / 16`).  `DT_RPATH`/`DT_RUNPATH` entries have
`strbase + d_un.d_ptr` validated — a failure being `goto close` (`Bool`
result false) — and the referenced string added to the Search-Path
Registry. -/
def dynPass1 (f : List Nat) (endp : Nat) (exe : String) (strbase : Nat) :
    Nat → Nat → ScanSt → Bool × ScanSt
  | 0, _, st => (true, st)
  | k + 1, dbuf, st =>
    match ptr_ok st dbuf 0 endp "dbuf" exe with
    | (false, st) => (true, st)
    | (true, st) =>
      let st := logRd st dbuf 8
      if d_tag f dbuf = DT_RPATH ∨ d_tag f dbuf = DT_RUNPATH then
        let st := logRd st (dbuf + 8) 8
        match ptr_ok st (strbase + d_ptr f dbuf) 0 endp "searchpath" exe with
        | (false, st) => (false, st)
        | (true, st) =>
          let st := logStr st f (strbase + d_ptr f dbuf)
          let st := { st with
            evs := st.evs ++ [Ev.addPath (readStr f (strbase + d_ptr f dbuf))] }
          dynPass1 f endp exe strbase k (dbuf + 16) st
      else dynPass1 f endp exe strbase k (dbuf + 16) st

/-- Second pass over the dynamic section's entries (main.c 190-202), same
loop shape as `dynPass1`: `DT_NEEDED` entries have `strbase + d_un.d_ptr`
validated and `copy_libs_for_lib` invoked on the referenced name (recorded
as a `needLib` event; the recursive resolution itself is the fuel
interpreter below). -/
def dynPass2 (f : List Nat) (endp : Nat) (exe : String) (strbase : Nat) :
    Nat → Nat → ScanSt → Bool × ScanSt
  | 0, _, st => (true, st)
  | k + 1, dbuf, st =>
    match ptr_ok st dbuf 0 endp "dbuf" exe with
    | (false, st) => (true, st)
    | (true, st) =>
      let st := logRd st dbuf 8
      if d_tag f dbuf = DT_NEEDED then
        let st := logRd st (dbuf + 8) 8
        match ptr_ok st (strbase + d_ptr f dbuf) 0 endp "lib" exe with
        | (false, st) => (false, st)
        | (true, st) =>
          let st := logStr st f (strbase + d_ptr f dbuf)
          let st := { st with
            evs := st.evs ++ [Ev.needLib (readStr f (strbase + d_ptr f dbuf))] }
          dynPass2 f endp exe strbase k (dbuf + 16) st
      else dynPass2 f endp exe strbase k (dbuf + 16) st

/-- Second section-header scan (main.c 165-205): `sections` is reset to
`e_shnum` but `sbuf` is NOT reset — the caller passes the position where the
string-table scan stopped.  The scan stops early at an `SHT_NULL` section
header; at an `SHT_DYNAMIC` header it validates `base + sh_offset`, runs
`dynPass1` then `dynPass2` over the entries, and continues with the next
header.  A `goto close` from either pass or from the `dbuf` validation ends
the scan. -/
def dynSearchLoop (f : List Nat) (endp : Nat) (exe : String) (strbase : Nat) :
    Nat → Nat → ScanSt → ScanSt
  | 0, _, st => st
  | n + 1, sbuf, st =>
    match ptr_ok st sbuf 0 endp "sbuf" exe with
    | (false, st) => st
    | (true, st) =>
      let st := logRd st (sbuf + 4) 4
      if sh_type f sbuf = SHT_NULL then st
      else if sh_type f sbuf = SHT_DYNAMIC then
        let st := logRd st (sbuf + 24) 8
        match ptr_ok st (sh_offset f sbuf) 0 endp "dbuf" exe with
        | (false, st) => st
        | (true, st) =>
          let st := logRd st (sbuf + 32) 8
          match dynPass1 f endp exe strbase (sh_size f sbuf / 16) (sh_offset f sbuf) st with
          | (false, st) => st
          | (true, st) =>
            let st := logRd st (sbuf + 24) 8
            let st := logRd st (sbuf + 32) 8
            match dynPass2 f endp exe strbase (sh_size f sbuf / 16) (sh_offset f sbuf) st with
            | (false, st) => st
            | (true, st) => dynSearchLoop f endp exe strbase n (sbuf + 64) st
      else dynSearchLoop f endp exe strbase n (sbuf + 64) st

/-- The section-header phase of `copy_libs_for_exe` (main.c 150-205): the
string-table scan, the `strbase == NULL` check (`goto error_close`, i.e. the
unguarded `perror`), then the dynamic-section scan starting FROM THE POSITION
WHERE THE STRING-TABLE SCAN STOPPED (the C code resets `sections` but not
`sbuf`). -/
def sectionScan (f : List Nat) (endp : Nat) (exe : String)
    (shnum sbuf : Nat) (st : ScanSt) : ScanSt :=
  match strtabLoop f endp exe shnum sbuf st with
  | (st, StrtabOut.abortClose) => st
  | (st, StrtabOut.notFound) => { st with diags := st.diags ++ [Diag.perrorCopyLibs] }
  | (st, StrtabOut.found strbase pos) => dynSearchLoop f endp exe strbase shnum pos st

/-- One whole `copy_libs_for_exe` scan (main.c 106-215) of the file whose
mapped bytes are `f`.  `openOk`, `fstatOk`, `mmapOk` model the outcomes of
`open`, `fstat` and `mmap`; a failed `open` is a guarded warning, failed
`fstat`/`mmap` are `goto error_close` (unguarded `perror`).  After the magic
check the walk reads `e_phnum`, runs the program-header loop, validates
`sbuf = base + e_shoff`, and runs the section phase. -/
def copy_libs_for_exe_scan (exe : String) (openOk fstatOk mmapOk : Bool)
    (f : List Nat) (st : ScanSt) : ScanSt :=
  if !openOk then { st with diags := st.diags ++ [Diag.warnOpen exe] }
  else if !fstatOk then { st with diags := st.diags ++ [Diag.perrorCopyLibs] }
  else if !mmapOk then { st with diags := st.diags ++ [Diag.perrorCopyLibs] }
  else
    let endp := f.length
    let st := logRd st 0 (magicCmpLen f)
    if !checkMagic f then { st with diags := st.diags ++ [Diag.warnNotElf exe] }
    else
      let st := logRd st 56 2
      match phdrLoop f endp exe (e_phnum f) 64 st with
      | (false, st) => st
      | (true, st) =>
        let st := logRd st 40 8
        match ptr_ok st (e_shoff f) 0 endp "sbuf" exe with
        | (false, st) => st
        | (true, st) =>
          let st := logRd st 60 2
          sectionScan f endp exe (e_shnum f) (e_shoff f) st

/-- Which collected diagnostics are actually printed (main.c: each
`Warning ...` `fprintf` is guarded by `if (!arg_quiet)`, the
`perror("copy libs")` at line 209 is not). -/
def emittedDiags (quiet : Bool) (st : ScanSt) : List Diag :=
  if quiet then st.diags.filter isPerror else st.diags

/-- A scan together with what it prints under a given quiet setting: the
pair of the scan's result state and the diagnostics that reach stderr. -/
def scanWithQuiet (quiet : Bool) (exe : String) (openOk fstatOk mmapOk : Bool)
    (f : List Nat) (st : ScanSt) : ScanSt × List Diag :=
  (copy_libs_for_exe_scan exe openOk fstatOk mmapOk f st,
   emittedDiags quiet (copy_libs_for_exe_scan exe openOk fstatOk mmapOk f st))

/-! ## The recursive resolver

`copy_libs_for_lib` (main.c 217-238) and `copy_libs_for_exe` recurse into
each other through the `DT_NEEDED` entries.  For the resolution-level claims
the per-file ELF parse is abstracted into a `Bin`: the interpreter paths,
`RPATH`/`RUNPATH` directories and `NEEDED` names one scan of that file
yields, in the order the C code consumes them (interpreters during the
program-header walk, then search paths, then needed names).  `FS.acc` models
`access(path, R_OK) == 0` and `FS.bins` models what opening and scanning a
path yields (`none`: the scan is skipped with a warning — unopenable or not
an ELF image).  The interpreter is indexed by a fuel `Nat`, consumed one
unit per step, and returns `none` only on fuel exhaustion; the C code has no
fuel, so termination facts are stated as fuel-independence of the result. -/

/-- What one file scan contributes, abstractly. -/
structure Bin where
  interps : List String
  rpaths : List String
  needed : List String

/-- The ambient file system seen by the resolver. -/
structure FS where
  acc : String → Bool
  bins : String → Option Bin

/-- The process-wide resolver state: `libs` (the Dependency Set) and
`lib_paths` (the Search-Path Registry), both head-is-most-recent `Storage`
lists, plus the resolver's collected diagnostics. -/
structure LState where
  libs : List String
  lib_paths : List String
  diags : List Diag
deriving DecidableEq, Repr

/-- The four control points of the mutual recursion, interleaved into one
fuel-indexed function: scanning a binary (`exe`, i.e. `copy_libs_for_exe`),
working through its needed names (`neededL`, the `DT_NEEDED` pass),
resolving one name (`lib`, i.e. `copy_libs_for_lib` entry), and walking the
registry (`search`, the `for (lib_path = lib_paths; ...)` loop). -/
inductive RTask where
  | exe (path : String)
  | neededL (ls : List String)
  | lib (name : String)
  | search (dirs : List String) (name : String)

/-- The resolver (main.c 106-238 at the resolution level).  `exe`: an
unopenable/unscannable path is a guarded warning and a skip; otherwise the
interpreter paths are added to `libs` directly, the `RPATH`/`RUNPATH`
directories to `lib_paths`, and the needed names resolved in order.
`search` (the body of `copy_libs_for_lib`): for each registry directory in
list order build `dir ++ "/" ++ name`; at the first one with read access,
return at once if it is already in `libs`, otherwise add it and recurse into
it; if no directory hits, warn and continue. -/
def runTask (fs : FS) : Nat → RTask → LState → Option LState
  | 0, _, _ => none
  | fuel + 1, t, st =>
    match t with
    | RTask.exe path =>
      match fs.bins path with
      | none => some { st with diags := st.diags ++ [Diag.warnOpen path] }
      | some b =>
        runTask fs fuel (RTask.neededL b.needed)
          { st with libs := b.interps.foldl storage_add st.libs,
                    lib_paths := b.rpaths.foldl storage_add st.lib_paths }
    | RTask.neededL [] => some st
    | RTask.neededL (l :: ls) =>
      match runTask fs fuel (RTask.lib l) st with
      | none => none
      | some st => runTask fs fuel (RTask.neededL ls) st
    | RTask.lib name => runTask fs fuel (RTask.search st.lib_paths name) st
    | RTask.search [] name =>
      some { st with diags := st.diags ++ [Diag.warnNotFound name] }
    | RTask.search (d :: ds) name =>
      if fs.acc (d ++ "/" ++ name) then
        if storage_find st.libs (d ++ "/" ++ name) then some st
        else runTask fs fuel (RTask.exe (d ++ "/" ++ name))
               { st with libs := storage_add st.libs (d ++ "/" ++ name) }
      else runTask fs fuel (RTask.search ds name) st

/-- `default_lib_paths` (main.c 46-55); `LIBDIR` is a build-time
configuration macro, kept as the parameter `libdir`. -/
def default_lib_paths (libdir : String) : List String :=
  ["/lib", "/lib/x86_64-linux-gnu", "/lib64", "/usr/lib",
   "/usr/lib/x86_64-linux-gnu", libdir, "/usr/local/lib"]

/-- `lib_paths_init` (main.c 240-244): `storage_add` each default directory
in array order onto the initially empty registry (so the last-listed default
ends up at the head, i.e. highest search priority). -/
def lib_paths_init (libdir : String) : List String :=
  (default_lib_paths libdir).foldl storage_add []

/-! ## The `main` glue (main.c 251-306) -/

/-- The environment `main` consults: `accessOk` is `access(p, R_OK) == 0`,
`openRet` is the return value of `open(argv[2], O_CREAT|O_TRUNC|O_WRONLY,
0644)` (a nonnegative descriptor, or -1 on failure), `quietEnv` is
`getenv("FIREJAIL_QUIET")`. -/
structure MainEnv where
  accessOk : String → Bool
  openRet : Int
  quietEnv : Option String

/-- What one invocation of `main` does: its exit status, whether `usage()`
ran, the error lines it printed, the quiet flag, the `open` call it made
(path and mode), the descriptor handed to `storage_print`, whether that
descriptor was `close`d, and whether the resolver ran at all. -/
structure MainRes where
  exitCode : Nat
  usagePrinted : Bool
  errs : List String
  argQuiet : Bool
  openedOut : Option (String × Nat)
  outFd : Int
  closedOut : Bool
  ranResolver : Bool
deriving DecidableEq, Repr

/-- `main` (main.c 251-306), in source order: the `argc < 2` check, the
first `--help` check, the `access(argv[1], R_OK)` check, the
`FIREJAIL_QUIET` parse, the `-h`/`--help`/`-?` check, then — with a third
argument — `fd = open(argv[2], O_CREAT|O_TRUNC|O_WRONLY, 0644)` tested by
`if (!fd)` (i.e. only a return of exactly 0 is treated as failure), and
finally the resolver and `storage_print` on `fd`, closing `fd` only in the
three-argument case. -/
def fldd_main (argv : List String) (env : MainEnv) : MainRes :=
  if argv.length < 2 then
    ⟨1, true, ["Error fldd: invalid arguments"], false, none, 1, false, false⟩
  else if argv.getD 1 "" = "--help" then
    ⟨0, true, [], false, none, 1, false, false⟩
  else if !(env.accessOk (argv.getD 1 "")) then
    ⟨1, false, ["Error fldd: cannot access " ++ argv.getD 1 ""], false, none, 1,
     false, false⟩
  else
    let quiet := env.quietEnv = some "yes"
    if argv.getD 1 "" = "-h" ∨ argv.getD 1 "" = "--help" ∨ argv.getD 1 "" = "-?" then
      ⟨0, true, [], quiet, none, 1, false, false⟩
    else if argv.length = 3 then
      if env.openRet = 0 then
        ⟨1, true, ["Error fldd: invalid arguments"], quiet,
         some (argv.getD 2 "", 0o644), env.openRet, false, false⟩
      else
        ⟨0, false, [], quiet, some (argv.getD 2 "", 0o644), env.openRet, true, true⟩
    else
      ⟨0, false, [], quiet, none, 1, false, true⟩

/-! ## Concrete inputs used to settle the claims -/

/-- Modelled from the spec claim wording for C2 ("linear-scans the
section-header table again (i.e., examines the section headers from the
start of the table), stopping early only when a null-typed section header is
encountered before a dynamic section is found"): scan the headers from index
`i` (the claim starts at 0), returning the index of the first
`SHT_DYNAMIC` section, stopping at an `SHT_NULL` header.  This is the
claim's description, to be compared against the code's `dynSearchLoop`,
which starts at the string-table header instead. -/
def find_dynamic_fromStart (f : List Nat) : Nat → Nat → Option Nat
  | 0, _ => none
  | n + 1, i =>
    if sh_type f (e_shoff f + 64 * i) = SHT_NULL then none
    else if sh_type f (e_shoff f + 64 * i) = SHT_DYNAMIC then some i
    else find_dynamic_fromStart f n (i + 1)

/-- The claim's from-the-start dynamic-section search over the whole
section-header table. -/
def find_dynamic_fromStart_claim (f : List Nat) : Option Nat :=
  find_dynamic_fromStart f (e_shnum f) 0

/-- A 64-byte file: a valid ELF magic, `e_phnum = 1`, every other header
field zero.  Its single program-header entry starts at offset 64 — exactly
`end` — so `ptr_ok(pbuf, base, end, ...)` succeeds and the code then reads
the 56-byte `Elf64_Phdr` structure entirely beyond the file's bytes. -/
def fC1 : List Nat :=
  [0x7f, 0x45, 0x4c, 0x46] ++ List.replicate 52 0 ++ [1, 0] ++ List.replicate 6 0

/-- ELF header of `fC2`: valid magic, `e_phoff`/`e_phnum` zero,
`e_shoff = 64`, `e_shnum = 3`. -/
def ehdrC2 : List Nat :=
  [0x7f, 0x45, 0x4c, 0x46] ++ List.replicate 36 0 ++ [64, 0, 0, 0, 0, 0, 0, 0] ++
  List.replicate 8 0 ++ [0, 0] ++ [0, 0] ++ [3, 0] ++ [0, 0]

/-- Section header 0 of `fC2`: `SHT_DYNAMIC`, `sh_offset = 256`,
`sh_size = 16`. -/
def sh0C2 : List Nat :=
  List.replicate 4 0 ++ [6, 0, 0, 0] ++ List.replicate 16 0 ++
  [0, 1, 0, 0, 0, 0, 0, 0] ++ [16, 0, 0, 0, 0, 0, 0, 0] ++ List.replicate 24 0

/-- Section header 1 of `fC2`: `SHT_STRTAB`, `sh_offset = 272`. -/
def sh1C2 : List Nat :=
  List.replicate 4 0 ++ [3, 0, 0, 0] ++ List.replicate 16 0 ++
  [16, 1, 0, 0, 0, 0, 0, 0] ++ List.replicate 8 0 ++ List.replicate 24 0

/-- The dynamic section data of `fC2`: one `Elf64_Dyn` entry with
`d_tag = DT_NEEDED` and `d_un.d_ptr = 0`. -/
def dynDataC2 : List Nat := [1, 0, 0, 0, 0, 0, 0, 0] ++ List.replicate 8 0

/-- The string table data of `fC2`: the bytes of `"libx.so"` and a NUL. -/
def strsC2 : List Nat := [108, 105, 98, 120, 46, 115, 111, 0]

/-- A 280-byte well-formed-enough ELF image whose dynamic section (with one
`DT_NEEDED` entry) sits at section index 0, BEFORE the string table at
index 1, with an `SHT_NULL` header at index 2. -/
def fC2 : List Nat :=
  ehdrC2 ++ sh0C2 ++ sh1C2 ++ List.replicate 64 0 ++ dynDataC2 ++ strsC2

/-- A 64-byte file with a valid magic and `e_shoff = 2^56` (byte 47 = 1), so
`ptr_ok(sbuf, ...)` fails and the scan stops with a bad-pointer warning. -/
def fC8bad : List Nat :=
  [0x7f, 0x45, 0x4c, 0x46] ++ List.replicate 36 0 ++ [0, 0, 0, 0, 0, 0, 0, 1] ++
  List.replicate 16 0

/-- A binary whose only contribution is one needed name. -/
def binNeeds (n : String) : Bin := ⟨[], [], [n]⟩

/-- The cyclic pair of the spec's cycle-safety scenario: `/A` needs
`libB.so`, resolved at `/lib/libB.so`, which needs `libA.so`, resolved at
`/lib/libA.so`, which needs `libB.so` again. -/
def fsAB : FS :=
  ⟨fun p => p = "/lib/libA.so" ∨ p = "/lib/libB.so",
   fun p => if p = "/A" then some (binNeeds "libB.so")
            else if p = "/lib/libB.so" then some (binNeeds "libA.so")
            else if p = "/lib/libA.so" then some (binNeeds "libB.so")
            else none⟩

/-- The process state right after `lib_paths_init` (with `LIBDIR` configured
as `/usr/lib64`): empty Dependency Set, default Search-Path Registry. -/
def st0 : LState := ⟨[], lib_paths_init "/usr/lib64", []⟩

/-- The spec's end-to-end scenario plus one unresolvable name: `/P` declares
interpreter `/lib64/ld-linux-x86-64.so.2` and needs `libmissing.so` (not
readable anywhere) and `libc.so.6` (readable at
`/lib/x86_64-linux-gnu/libc.so.6`, itself dependency-free). -/
def fsP : FS :=
  ⟨fun p => p = "/lib/x86_64-linux-gnu/libc.so.6",
   fun p =>
     if p = "/P" then
       some ⟨["/lib64/ld-linux-x86-64.so.2"], [], ["libmissing.so", "libc.so.6"]⟩
     else if p = "/lib/x86_64-linux-gnu/libc.so.6" then some ⟨[], [], []⟩
     else none⟩

/-- A file system for the priority scenarios: `libfoo.so` is readable both
under the non-default directory `/opt/app/lib` and under the default
`/lib`; both copies are dependency-free binaries. -/
def fsD : FS :=
  ⟨fun p => p = "/opt/app/lib/libfoo.so" ∨ p = "/lib/libfoo.so",
   fun p => if p = "/opt/app/lib/libfoo.so" ∨ p = "/lib/libfoo.so"
            then some ⟨[], [], []⟩ else none⟩

/-- A file system for the default-order scenario: `libz.so` is readable both
under `/usr/local/lib` (listed last in `default_lib_paths`) and under `/lib`
(listed first); both copies are dependency-free. -/
def fsZ : FS :=
  ⟨fun p => p = "/usr/local/lib/libz.so" ∨ p = "/lib/libz.so",
   fun p => if p = "/usr/local/lib/libz.so" ∨ p = "/lib/libz.so"
            then some ⟨[], [], []⟩ else none⟩

set_option maxRecDepth 400000

/-! ## Theorems -/

theorem storage_find_iff_mem (l : List String) (n : String) :
    storage_find l n = true ↔ n ∈ l := by
  induction l with
  | nil => simp [storage_find]
  | cons a t ih =>
    simp only [storage_find, List.mem_cons]
    by_cases h : a = n
    · simp [h]
    · simp only [if_neg h, ih]
      constructor
      · exact fun hm => Or.inr hm
      · rintro (rfl | hm)
        · exact absurd rfl h
        · exact hm

theorem storage_find_eq_false_iff (l : List String) (n : String) :
    storage_find l n = false ↔ n ∉ l := by
  constructor
  · intro h hm
    rw [← storage_find_iff_mem] at hm
    rw [h] at hm
    exact Bool.false_ne_true hm
  · intro h
    cases hf : storage_find l n with
    | false => rfl
    | true => exact absurd ((storage_find_iff_mem l n).mp hf) h

theorem storage_add_nodup (l : List String) (n : String) (h : l.Nodup) :
    (storage_add l n).Nodup := by
  unfold storage_add
  cases hf : storage_find l n with
  | true => simpa using h
  | false =>
    simp only [Bool.false_eq_true, if_false]
    exact List.nodup_cons.mpr ⟨(storage_find_eq_false_iff l n).mp hf, h⟩

theorem storage_foldl_add_nodup (adds : List String) (acc : List String)
    (h : acc.Nodup) : (adds.foldl storage_add acc).Nodup := by
  induction adds generalizing acc with
  | nil => simpa using h
  | cons a t ih => exact ih (storage_add acc a) (storage_add_nodup acc a h)

theorem string_join_cons (a : String) (l : List String) :
    String.join (a :: l) = a ++ String.join l := by
  apply String.ext
  simp [String.join_eq, String.data_append]

/-- C9: adding an already-present name (by exact string equality) to either
`Storage` collection is a no-op — the list, and hence every existing entry's
position, is unchanged — so insertion is idempotent, and any sequence of
`storage_add`s starting from a duplicate-free list yields a duplicate-free
list. -/
theorem C9_idempotent_insertion :
    (∀ (l : List String) (n : String),
        storage_find l n = true → storage_add l n = l) ∧
    (∀ (l : List String) (n : String),
        storage_add (storage_add l n) n = storage_add l n) ∧
    (∀ (adds acc : List String), acc.Nodup → (adds.foldl storage_add acc).Nodup) := by
  refine ⟨fun l n h => by simp [storage_add, h], fun l n => ?_, storage_foldl_add_nodup⟩
  unfold storage_add
  cases hf : storage_find l n with
  | true => simp [hf]
  | false => simp [hf, storage_find]

theorem C9_idempotent_insertion_witness :
    storage_find ["/a", "/b"] "/b" = true ∧
    storage_add ["/a", "/b"] "/b" = ["/a", "/b"] ∧
    storage_add (storage_add ["/a"] "/c") "/c" = storage_add ["/a"] "/c" ∧
    (["/x", "/y", "/x"].foldl storage_add []).Nodup :=
  ⟨by decide, C9_idempotent_insertion.1 ["/a", "/b"] "/b" (by decide),
   C9_idempotent_insertion.2.1 ["/a"] "/c",
   C9_idempotent_insertion.2.2 ["/x", "/y", "/x"] [] (by decide)⟩

/-- C5: what `storage_print` emits is exactly the entries of the list, each
newline-terminated, concatenated in list order — the head (most recently
added, i.e. most recently resolved) first — with nothing before or after;
`storage_add` puts a fresh entry at the head; and on the spec's end-to-end
scenario extended with an unresolvable name the run still produces the
resolved entries (a partial Dependency Set is emitted despite the failure,
most recently resolved first). -/
theorem C5_output_format :
    (∀ l : List String,
        storage_print l = String.join (l.map (fun s => s ++ "\n"))) ∧
    (∀ (l : List String) (n : String),
        storage_find l n = false → storage_add l n = n :: l) ∧
    (∃ r : LState, runTask fsP 64 (RTask.exe "/P") st0 = some r ∧
        r.diags = [Diag.warnNotFound "libmissing.so"] ∧
        storage_print r.libs =
          "/lib/x86_64-linux-gnu/libc.so.6\n/lib64/ld-linux-x86-64.so.2\n") := by
  refine ⟨fun l => ?_, fun l n h => by simp [storage_add, h], ?_⟩
  · induction l with
    | nil => rfl
    | cons a t ih =>
      rw [storage_print, List.map_cons, string_join_cons, ← ih]
  · exact ⟨⟨["/lib/x86_64-linux-gnu/libc.so.6", "/lib64/ld-linux-x86-64.so.2"],
      lib_paths_init "/usr/lib64", [Diag.warnNotFound "libmissing.so"]⟩,
      by decide, by decide, by decide⟩

theorem C5_output_format_witness :
    storage_find ["/q"] "/p" = false ∧ storage_add ["/q"] "/p" = ["/p", "/q"] :=
  ⟨by decide, C5_output_format.2.1 ["/q"] "/p" (by decide)⟩

theorem runTask_exe (fs : FS) (n : Nat) (p : String) (st : LState) :
    runTask fs (n + 1) (RTask.exe p) st =
      match fs.bins p with
      | none => some { st with diags := st.diags ++ [Diag.warnOpen p] }
      | some b =>
        runTask fs n (RTask.neededL b.needed)
          { st with libs := b.interps.foldl storage_add st.libs,
                    lib_paths := b.rpaths.foldl storage_add st.lib_paths } := rfl

theorem runTask_needed_nil (fs : FS) (n : Nat) (st : LState) :
    runTask fs (n + 1) (RTask.neededL []) st = some st := rfl

theorem runTask_needed_cons (fs : FS) (n : Nat) (l : String) (ls : List String)
    (st : LState) :
    runTask fs (n + 1) (RTask.neededL (l :: ls)) st =
      match runTask fs n (RTask.lib l) st with
      | none => none
      | some st1 => runTask fs n (RTask.neededL ls) st1 := rfl

theorem runTask_lib (fs : FS) (n : Nat) (name : String) (st : LState) :
    runTask fs (n + 1) (RTask.lib name) st =
      runTask fs n (RTask.search st.lib_paths name) st := rfl

theorem runTask_search_nil (fs : FS) (n : Nat) (name : String) (st : LState) :
    runTask fs (n + 1) (RTask.search [] name) st =
      some { st with diags := st.diags ++ [Diag.warnNotFound name] } := rfl

theorem runTask_search_cons (fs : FS) (n : Nat) (d : String) (ds : List String)
    (name : String) (st : LState) :
    runTask fs (n + 1) (RTask.search (d :: ds) name) st =
      if fs.acc (d ++ "/" ++ name) then
        if storage_find st.libs (d ++ "/" ++ name) then some st
        else runTask fs n (RTask.exe (d ++ "/" ++ name))
               { st with libs := storage_add st.libs (d ++ "/" ++ name) }
      else runTask fs n (RTask.search ds name) st := rfl

theorem runTask_mono (fs : FS) :
    ∀ (fuel : Nat) (t : RTask) (st r : LState),
      runTask fs fuel t st = some r → runTask fs (fuel + 1) t st = some r := by
  intro fuel
  induction fuel with
  | zero => intro t st r h; exact absurd h (by simp [runTask])
  | succ n ih =>
    intro t st r h
    cases t with
    | exe path =>
      rw [runTask_exe] at h ⊢
      cases hb : fs.bins path with
      | none => rw [hb] at h; exact h
      | some b => rw [hb] at h; exact ih _ _ _ h
    | neededL ls =>
      cases ls with
      | nil => rw [runTask_needed_nil] at h; rw [runTask_needed_nil]; exact h
      | cons l ls =>
        rw [runTask_needed_cons] at h
        rw [runTask_needed_cons]
        cases hx : runTask fs n (RTask.lib l) st with
        | none => rw [hx] at h; exact absurd h (by simp)
        | some st1 =>
          rw [hx] at h
          rw [ih _ _ _ hx]
          exact ih _ _ _ h
    | lib name =>
      rw [runTask_lib] at h
      rw [runTask_lib]
      exact ih _ _ _ h
    | search dirs name =>
      cases dirs with
      | nil => rw [runTask_search_nil] at h; rw [runTask_search_nil]; exact h
      | cons d ds =>
        rw [runTask_search_cons] at h
        rw [runTask_search_cons]
        by_cases ha : fs.acc (d ++ "/" ++ name) = true
        · rw [if_pos ha] at h; rw [if_pos ha]
          by_cases hf : storage_find st.libs (d ++ "/" ++ name) = true
          · rw [if_pos hf] at h; rw [if_pos hf]; exact h
          · rw [if_neg hf] at h; rw [if_neg hf]; exact ih _ _ _ h
        · rw [if_neg ha] at h; rw [if_neg ha]; exact ih _ _ _ h

theorem runTask_mono_add (fs : FS) (fuel m : Nat) (t : RTask) (st r : LState)
    (h : runTask fs fuel t st = some r) : runTask fs (fuel + m) t st = some r := by
  induction m with
  | zero => exact h
  | succ k ihk => exact runTask_mono fs (fuel + k) t st r ihk

/-- C3: (a) in `copy_libs_for_lib`, when the first readable hit for a name
is a path already present in the Dependency Set, the call returns at once
with the state unchanged — no re-resolution, no recursion; (b) on the
cyclic pair `/A` (needs `libB.so`) / `/lib/libB.so` (needs `libA.so`) /
`/lib/libA.so` (needs `libB.so`), the resolution reaches a fixed result at
fuel 30 that every larger fuel reproduces (the run terminates), and the
final Dependency Set holds exactly one entry for each of the two resolved
paths. -/
theorem C3_cycle_safe_termination :
    (∀ (fs : FS) (fuel : Nat) (st : LState) (d : String) (ds : List String)
        (name : String),
        fs.acc (d ++ "/" ++ name) = true →
        storage_find st.libs (d ++ "/" ++ name) = true →
        runTask fs (fuel + 1) (RTask.search (d :: ds) name) st = some st) ∧
    (∃ r : LState,
        (∀ m : Nat, runTask fsAB (30 + m) (RTask.exe "/A") st0 = some r) ∧
        r.libs = ["/lib/libA.so", "/lib/libB.so"] ∧ r.libs.Nodup) := by
  constructor
  · intro fs fuel st d ds name ha hf
    rw [runTask_search_cons, if_pos ha, if_pos hf]
  · refine ⟨⟨["/lib/libA.so", "/lib/libB.so"], lib_paths_init "/usr/lib64", []⟩,
      fun m => runTask_mono_add fsAB 30 m _ _ _ (by decide), by decide, by decide⟩

theorem C3_cycle_safe_termination_witness :
    fsAB.acc ("/lib" ++ "/" ++ "libB.so") = true ∧
    storage_find ["/lib/libB.so"] ("/lib" ++ "/" ++ "libB.so") = true ∧
    runTask fsAB 7 (RTask.search ["/lib"] "libB.so")
        ⟨["/lib/libB.so"], ["/lib"], []⟩ =
      some ⟨["/lib/libB.so"], ["/lib"], []⟩ :=
  ⟨by decide, by decide,
   C3_cycle_safe_termination.1 fsAB 6 ⟨["/lib/libB.so"], ["/lib"], []⟩ "/lib" []
     "libB.so" (by decide) (by decide)⟩

theorem runTask_lib_first_hit (fs : FS) (g : Nat) (D name : String)
    (libs0 rest : List String) (dg : List Diag)
    (ha : fs.acc (D ++ "/" ++ name) = true)
    (hb : fs.bins (D ++ "/" ++ name) = some ⟨[], [], []⟩)
    (hf : storage_find libs0 (D ++ "/" ++ name) = false) :
    runTask fs (g + 4) (RTask.lib name) ⟨libs0, D :: rest, dg⟩ =
      some ⟨(D ++ "/" ++ name) :: libs0, D :: rest, dg⟩ := by
  rw [runTask_lib]
  show runTask fs (g + 3) (RTask.search (D :: rest) name) _ = _
  rw [runTask_search_cons, if_pos ha, if_neg (by simp [hf])]
  have hadd : storage_add libs0 (D ++ "/" ++ name) = (D ++ "/" ++ name) :: libs0 := by
    simp [storage_add, hf]
  show runTask fs (g + 2) (RTask.exe (D ++ "/" ++ name))
      ⟨storage_add libs0 (D ++ "/" ++ name), D :: rest, dg⟩ = _
  rw [hadd, runTask_exe, hb]
  show runTask fs (g + 1) (RTask.neededL []) _ = _
  rw [runTask_needed_nil]
  rfl

/-- C4: (a) the `copy_libs_for_lib` loop walks the registry in list order —
a directory without read access for `<dir>/<name>` is skipped and the search
continues with the rest; (b) for a declared directory `D` not among the
registry's current entries (`storage_add` puts it at the head, i.e. highest
priority), a name readable under `D` (and also under the default `/lib`)
resolves to the file under `D`: it is that path that enters the Dependency
Set. -/
theorem C4_search_priority :
    (∀ (fs : FS) (fuel : Nat) (st : LState) (d : String) (ds : List String)
        (name : String),
        fs.acc (d ++ "/" ++ name) = false →
        runTask fs (fuel + 1) (RTask.search (d :: ds) name) st =
          runTask fs fuel (RTask.search ds name) st) ∧
    (∀ (fs : FS) (g : Nat) (libdir D name : String) (libs0 : List String)
        (dg : List Diag),
        storage_find (lib_paths_init libdir) D = false →
        fs.acc (D ++ "/" ++ name) = true →
        fs.acc ("/lib" ++ "/" ++ name) = true →
        fs.bins (D ++ "/" ++ name) = some ⟨[], [], []⟩ →
        storage_find libs0 (D ++ "/" ++ name) = false →
        runTask fs (g + 4) (RTask.lib name)
            ⟨libs0, storage_add (lib_paths_init libdir) D, dg⟩ =
          some ⟨(D ++ "/" ++ name) :: libs0,
                storage_add (lib_paths_init libdir) D, dg⟩) := by
  constructor
  · intro fs fuel st d ds name ha
    rw [runTask_search_cons, if_neg (by simp [ha])]
  · intro fs g libdir D name libs0 dg hD ha hlib hb hf
    have hadd : storage_add (lib_paths_init libdir) D = D :: lib_paths_init libdir := by
      simp [storage_add, hD]
    rw [hadd]
    exact runTask_lib_first_hit fs g D name libs0 (lib_paths_init libdir) dg ha hb hf

theorem C4_search_priority_witness :
    storage_find (lib_paths_init "/usr/lib64") "/opt/app/lib" = false ∧
    fsD.acc ("/opt/app/lib" ++ "/" ++ "libfoo.so") = true ∧
    fsD.acc ("/lib" ++ "/" ++ "libfoo.so") = true ∧
    runTask fsD 4 (RTask.lib "libfoo.so")
        ⟨[], storage_add (lib_paths_init "/usr/lib64") "/opt/app/lib", []⟩ =
      some ⟨["/opt/app/lib/libfoo.so"],
            storage_add (lib_paths_init "/usr/lib64") "/opt/app/lib", []⟩ :=
  ⟨by decide, by decide, by decide,
   C4_search_priority.2 fsD 0 "/usr/lib64" "/opt/app/lib" "libfoo.so" [] []
     (by decide) (by decide) (by decide) (by rfl) (by decide)⟩

theorem lib_paths_init_head (libdir : String) :
    ∃ rest : List String,
      lib_paths_init libdir = "/usr/local/lib" :: rest ∧ "/lib" ∈ rest := by
  have h7 : lib_paths_init libdir =
      storage_add (storage_add ["/usr/lib/x86_64-linux-gnu", "/usr/lib", "/lib64",
        "/lib/x86_64-linux-gnu", "/lib"] libdir) "/usr/local/lib" := rfl
  rw [h7]
  cases hf : storage_find ["/usr/lib/x86_64-linux-gnu", "/usr/lib", "/lib64",
      "/lib/x86_64-linux-gnu", "/lib"] libdir with
  | true =>
    have h1 : storage_add ["/usr/lib/x86_64-linux-gnu", "/usr/lib", "/lib64",
        "/lib/x86_64-linux-gnu", "/lib"] libdir = ["/usr/lib/x86_64-linux-gnu",
        "/usr/lib", "/lib64", "/lib/x86_64-linux-gnu", "/lib"] := by
      simp [storage_add, hf]
    rw [h1]
    exact ⟨["/usr/lib/x86_64-linux-gnu", "/usr/lib", "/lib64",
      "/lib/x86_64-linux-gnu", "/lib"], by decide, by decide⟩
  | false =>
    have h1 : storage_add ["/usr/lib/x86_64-linux-gnu", "/usr/lib", "/lib64",
        "/lib/x86_64-linux-gnu", "/lib"] libdir = libdir ::
        ["/usr/lib/x86_64-linux-gnu", "/usr/lib", "/lib64",
         "/lib/x86_64-linux-gnu", "/lib"] := by
      simp [storage_add, hf]
    rw [h1]
    by_cases hl : libdir = "/usr/local/lib"
    · subst hl
      refine ⟨["/usr/lib/x86_64-linux-gnu", "/usr/lib", "/lib64",
        "/lib/x86_64-linux-gnu", "/lib"], ?_, by decide⟩
      simp [storage_add, storage_find]
    · refine ⟨libdir :: ["/usr/lib/x86_64-linux-gnu", "/usr/lib", "/lib64",
        "/lib/x86_64-linux-gnu", "/lib"], ?_, by simp⟩
      have hfind : storage_find (libdir :: ["/usr/lib/x86_64-linux-gnu",
          "/usr/lib", "/lib64", "/lib/x86_64-linux-gnu", "/lib"])
          "/usr/local/lib" = false := by
        rw [storage_find_eq_false_iff]
        intro hm
        rcases List.mem_cons.mp hm with h | h
        · exact hl h.symm
        · revert h; decide
      simp [storage_add, hfind]

/-- C10: `lib_paths_init` prepends the defaults in array order, so the
registry ends up in the reverse of the listed order — `/usr/local/lib`
(listed last) is always the head, `/lib` (listed first) sits behind it, and
when `LIBDIR` duplicates no other default the registry is exactly the
reversed defaults array; consequently a name readable both under
`/usr/local/lib` and under `/lib` resolves to the `/usr/local/lib` file. -/
theorem C10_defaults_reverse_priority :
    (∀ libdir : String, ∃ rest : List String,
        lib_paths_init libdir = "/usr/local/lib" :: rest ∧ "/lib" ∈ rest) ∧
    (∀ libdir : String,
        libdir ∉ (["/lib", "/lib/x86_64-linux-gnu", "/lib64", "/usr/lib",
          "/usr/lib/x86_64-linux-gnu", "/usr/local/lib"] : List String) →
        lib_paths_init libdir = (default_lib_paths libdir).reverse) ∧
    (∀ (fs : FS) (g : Nat) (libdir name : String) (libs0 : List String)
        (dg : List Diag),
        fs.acc ("/usr/local/lib" ++ "/" ++ name) = true →
        fs.acc ("/lib" ++ "/" ++ name) = true →
        fs.bins ("/usr/local/lib" ++ "/" ++ name) = some ⟨[], [], []⟩ →
        storage_find libs0 ("/usr/local/lib" ++ "/" ++ name) = false →
        runTask fs (g + 4) (RTask.lib name) ⟨libs0, lib_paths_init libdir, dg⟩ =
          some ⟨("/usr/local/lib" ++ "/" ++ name) :: libs0,
                lib_paths_init libdir, dg⟩) := by
  refine ⟨lib_paths_init_head, ?_, ?_⟩
  · intro libdir h
    simp only [List.mem_cons, List.not_mem_nil, or_false, not_or] at h
    obtain ⟨n1, n2, n3, n4, n5, n6⟩ := h
    have h7 : lib_paths_init libdir =
        storage_add (storage_add ["/usr/lib/x86_64-linux-gnu", "/usr/lib", "/lib64",
          "/lib/x86_64-linux-gnu", "/lib"] libdir) "/usr/local/lib" := rfl
    have hf5 : storage_find ["/usr/lib/x86_64-linux-gnu", "/usr/lib", "/lib64",
        "/lib/x86_64-linux-gnu", "/lib"] libdir = false := by
      rw [storage_find_eq_false_iff]
      intro hm
      simp only [List.mem_cons, List.not_mem_nil, or_false] at hm
      rcases hm with h | h | h | h | h
      · exact n5 h
      · exact n4 h
      · exact n3 h
      · exact n2 h
      · exact n1 h
    have h1 : storage_add ["/usr/lib/x86_64-linux-gnu", "/usr/lib", "/lib64",
        "/lib/x86_64-linux-gnu", "/lib"] libdir = libdir ::
        ["/usr/lib/x86_64-linux-gnu", "/usr/lib", "/lib64",
         "/lib/x86_64-linux-gnu", "/lib"] := by
      simp [storage_add, hf5]
    have hfind : storage_find (libdir :: ["/usr/lib/x86_64-linux-gnu",
        "/usr/lib", "/lib64", "/lib/x86_64-linux-gnu", "/lib"])
        "/usr/local/lib" = false := by
      rw [storage_find_eq_false_iff]
      intro hm
      rcases List.mem_cons.mp hm with h | h
      · exact n6 h.symm
      · revert h; decide
    rw [h7, h1]
    simp only [storage_add, hfind, Bool.false_eq_true, if_false]
    rfl
  · intro fs g libdir name libs0 dg ha hlib hb hf
    obtain ⟨rest, hr, _⟩ := lib_paths_init_head libdir
    rw [hr]
    exact runTask_lib_first_hit fs g "/usr/local/lib" name libs0 rest dg ha hb hf

theorem C10_defaults_reverse_priority_witness :
    fsZ.acc ("/usr/local/lib" ++ "/" ++ "libz.so") = true ∧
    fsZ.acc ("/lib" ++ "/" ++ "libz.so") = true ∧
    ("/usr/lib64" : String) ∉ (["/lib", "/lib/x86_64-linux-gnu", "/lib64",
      "/usr/lib", "/usr/lib/x86_64-linux-gnu", "/usr/local/lib"] : List String) ∧
    lib_paths_init "/usr/lib64" = (default_lib_paths "/usr/lib64").reverse ∧
    runTask fsZ 4 (RTask.lib "libz.so") ⟨[], lib_paths_init "/usr/lib64", []⟩ =
      some ⟨["/usr/local/lib/libz.so"], lib_paths_init "/usr/lib64", []⟩ :=
  ⟨by decide, by decide, by decide,
   C10_defaults_reverse_priority.2.1 "/usr/lib64" (by decide),
   C10_defaults_reverse_priority.2.2 fsZ 0 "/usr/lib64" "libz.so" [] []
     (by decide) (by decide) (by rfl) (by decide)⟩

theorem ptr_ok_snd_evs (st : ScanSt) (p b e : Nat) (fl ex : String) :
    ((ptr_ok st p b e fl ex).2).evs = st.evs := by
  unfold ptr_ok
  split <;> rfl

theorem dynPass1_evs (f : List Nat) (endp : Nat) (exe : String) (strbase : Nat) :
    ∀ (k dbuf : Nat) (st : ScanSt), ∃ ps : List String,
      ((dynPass1 f endp exe strbase k dbuf st).2).evs =
        st.evs ++ ps.map Ev.addPath := by
  intro k
  induction k with
  | zero => intro dbuf st; exact ⟨[], by simp [dynPass1]⟩
  | succ k ih =>
    intro dbuf st
    rw [dynPass1]
    split
    next st1 heq =>
      have e1 : st1.evs = st.evs := by
        have h := ptr_ok_snd_evs st dbuf 0 endp "dbuf" exe
        rw [heq] at h
        exact h
      exact ⟨[], by simp [e1]⟩
    next st1 heq =>
      have e1 : st1.evs = st.evs := by
        have h := ptr_ok_snd_evs st dbuf 0 endp "dbuf" exe
        rw [heq] at h
        exact h
      split
      · dsimp only []
        split
        next st2 heq2 =>
          have e2 : st2.evs = st.evs := by
            have h := ptr_ok_snd_evs (logRd (logRd st1 dbuf 8) (dbuf + 8) 8)
              (strbase + d_ptr f dbuf) 0 endp "searchpath" exe
            rw [heq2] at h
            exact h.trans e1
          exact ⟨[], by simp [e2]⟩
        next st2 heq2 =>
          have e2 : st2.evs = st.evs := by
            have h := ptr_ok_snd_evs (logRd (logRd st1 dbuf 8) (dbuf + 8) 8)
              (strbase + d_ptr f dbuf) 0 endp "searchpath" exe
            rw [heq2] at h
            exact h.trans e1
          obtain ⟨ps, hps⟩ := ih (dbuf + 16)
            { logStr st2 f (strbase + d_ptr f dbuf) with
              evs := (logStr st2 f (strbase + d_ptr f dbuf)).evs ++
                [Ev.addPath (readStr f (strbase + d_ptr f dbuf))] }
          refine ⟨readStr f (strbase + d_ptr f dbuf) :: ps, ?_⟩
          refine hps.trans ?_
          simp [logStr, e2]
      · obtain ⟨ps, hps⟩ := ih (dbuf + 16) (logRd st1 dbuf 8)
        refine ⟨ps, hps.trans ?_⟩
        simp [logRd, e1]

theorem dynPass2_evs (f : List Nat) (endp : Nat) (exe : String) (strbase : Nat) :
    ∀ (k dbuf : Nat) (st : ScanSt), ∃ ns : List String,
      ((dynPass2 f endp exe strbase k dbuf st).2).evs =
        st.evs ++ ns.map Ev.needLib := by
  intro k
  induction k with
  | zero => intro dbuf st; exact ⟨[], by simp [dynPass2]⟩
  | succ k ih =>
    intro dbuf st
    rw [dynPass2]
    split
    next st1 heq =>
      have e1 : st1.evs = st.evs := by
        have h := ptr_ok_snd_evs st dbuf 0 endp "dbuf" exe
        rw [heq] at h
        exact h
      exact ⟨[], by simp [e1]⟩
    next st1 heq =>
      have e1 : st1.evs = st.evs := by
        have h := ptr_ok_snd_evs st dbuf 0 endp "dbuf" exe
        rw [heq] at h
        exact h
      split
      · dsimp only []
        split
        next st2 heq2 =>
          have e2 : st2.evs = st.evs := by
            have h := ptr_ok_snd_evs (logRd (logRd st1 dbuf 8) (dbuf + 8) 8)
              (strbase + d_ptr f dbuf) 0 endp "lib" exe
            rw [heq2] at h
            exact h.trans e1
          exact ⟨[], by simp [e2]⟩
        next st2 heq2 =>
          have e2 : st2.evs = st.evs := by
            have h := ptr_ok_snd_evs (logRd (logRd st1 dbuf 8) (dbuf + 8) 8)
              (strbase + d_ptr f dbuf) 0 endp "lib" exe
            rw [heq2] at h
            exact h.trans e1
          obtain ⟨ns, hns⟩ := ih (dbuf + 16)
            { logStr st2 f (strbase + d_ptr f dbuf) with
              evs := (logStr st2 f (strbase + d_ptr f dbuf)).evs ++
                [Ev.needLib (readStr f (strbase + d_ptr f dbuf))] }
          refine ⟨readStr f (strbase + d_ptr f dbuf) :: ns, ?_⟩
          refine hns.trans ?_
          simp [logStr, e2]
      · obtain ⟨ns, hns⟩ := ih (dbuf + 16) (logRd st1 dbuf 8)
        refine ⟨ns, hns.trans ?_⟩
        simp [logRd, e1]

/-- C1 (evaluating the code at the failing input): on a 64-byte file with a
valid ELF magic and `e_phnum = 1`, the scan passes every `ptr_ok` check it
makes (no bad-pointer diagnostic is ever collected), yet its read trace
contains addresses beyond `end = base + 64`: `ptr_ok` admits `pbuf = end`
and the code then dereferences the program-header structure lying past the
mapped region, contradicting the claim that no byte outside `[base, end]`
is ever read. -/
theorem C1_reads_outside_mapped_region :
    checkMagic fC1 = true ∧
    fC1.length = 64 ∧
    (copy_libs_for_exe_scan "fC1" true true true fC1 ScanSt.init).reads.any
      (fun a => decide (64 < a)) = true ∧
    (copy_libs_for_exe_scan "fC1" true true true fC1 ScanSt.init).diags =
      [Diag.perrorCopyLibs] := by decide

/-- C2 counterexample: in `fC2` the section-header table holds a dynamic
section (with a `DT_NEEDED` entry) at index 0, before the string table at
index 1; the claim's from-the-start scan finds it, but the code's second
scan — which resumes at the string-table header instead of the table start —
emits no event at all for this file: the dynamic section is never
processed. -/
theorem C2_second_scan_misses_dynamic_before_strtab :
    find_dynamic_fromStart_claim fC2 = some 0 ∧
    sh_type fC2 (e_shoff fC2) = SHT_DYNAMIC ∧
    d_tag fC2 256 = DT_NEEDED ∧
    (copy_libs_for_exe_scan "fC2" true true true fC2 ScanSt.init).evs = [] := by
  decide

/-- C2 amended: the second section-header scan does NOT restart at the
table start; it resumes at the section header where the string-table scan
stopped (the string-table section itself), examining up to `e_shnum`
further headers from there, stopping early at an `SHT_NULL` header; and
when a dynamic section is processed, its first entry pass contributes only
Search-Path-Registry registrations (`addPath` events) and its second pass
only `NEEDED` resolutions (`needLib` events), so every `RPATH`/`RUNPATH`
string of the section is registered before any of its `NEEDED` names is
resolved. -/
theorem C2_amended_dynamic_scan :
    (∀ (f : List Nat) (endp : Nat) (exe : String) (shnum sbuf : Nat)
        (st stX : ScanSt) (strbase pos : Nat),
        strtabLoop f endp exe shnum sbuf st = (stX, StrtabOut.found strbase pos) →
        sectionScan f endp exe shnum sbuf st =
          dynSearchLoop f endp exe strbase shnum pos stX) ∧
    (∀ (f : List Nat) (endp : Nat) (exe : String) (strbase n sbuf : Nat)
        (st : ScanSt),
        sbuf ≤ endp → sh_type f sbuf = SHT_NULL →
        dynSearchLoop f endp exe strbase (n + 1) sbuf st = logRd st (sbuf + 4) 4) ∧
    (∀ (f : List Nat) (endp : Nat) (exe : String) (strbase k dbuf : Nat)
        (st : ScanSt), ∃ ps : List String,
        ((dynPass1 f endp exe strbase k dbuf st).2).evs =
          st.evs ++ ps.map Ev.addPath) ∧
    (∀ (f : List Nat) (endp : Nat) (exe : String) (strbase k dbuf : Nat)
        (st : ScanSt), ∃ ns : List String,
        ((dynPass2 f endp exe strbase k dbuf st).2).evs =
          st.evs ++ ns.map Ev.needLib) := by
  refine ⟨?_, ?_, fun f endp exe strbase k dbuf st => dynPass1_evs f endp exe strbase k dbuf st,
    fun f endp exe strbase k dbuf st => dynPass2_evs f endp exe strbase k dbuf st⟩
  · intro f endp exe shnum sbuf st stX strbase pos h
    unfold sectionScan
    rw [h]
  · intro f endp exe strbase n sbuf st h1 h2
    rw [dynSearchLoop]
    unfold ptr_ok
    rw [if_pos ⟨Nat.zero_le sbuf, h1⟩]
    dsimp only []
    rw [if_pos h2]

theorem C2_amended_dynamic_scan_witness :
    strtabLoop fC2 280 "fC2" 3 64 ScanSt.init =
      ((strtabLoop fC2 280 "fC2" 3 64 ScanSt.init).1, StrtabOut.found 272 128) ∧
    sectionScan fC2 280 "fC2" 3 64 ScanSt.init =
      dynSearchLoop fC2 280 "fC2" 272 3 128
        (strtabLoop fC2 280 "fC2" 3 64 ScanSt.init).1 ∧
    (192 : Nat) ≤ 280 ∧ sh_type fC2 192 = SHT_NULL ∧
    dynSearchLoop fC2 280 "fC2" 272 1 192 ScanSt.init =
      logRd ScanSt.init (192 + 4) 4 :=
  ⟨by decide,
   C2_amended_dynamic_scan.1 fC2 280 "fC2" 3 64 ScanSt.init
     (strtabLoop fC2 280 "fC2" 3 64 ScanSt.init).1 272 128 (by decide),
   by decide, by decide,
   C2_amended_dynamic_scan.2.1 fC2 280 "fC2" 272 0 192 ScanSt.init
     (by decide) (by decide)⟩

/-- C6 (evaluating the code at the failing input): because the
`access(argv[1], R_OK)` check at main.c 274 precedes the `-h`/`-?` check at
main.c 283, `fldd -h` with no readable file named `-h` prints the access
error and exits 1 — not usage/exit 0 as the claim states; with a readable
file named `-h` it does print usage and exit 0, and `--help` (checked at
main.c 268, before the access check) works regardless. -/
theorem C6_dash_h_depends_on_file_access :
    (fldd_main ["fldd", "-h"] ⟨fun _ => false, -1, none⟩).exitCode = 1 ∧
    (fldd_main ["fldd", "-h"] ⟨fun _ => false, -1, none⟩).usagePrinted = false ∧
    (fldd_main ["fldd", "-h"] ⟨fun _ => false, -1, none⟩).errs =
      ["Error fldd: cannot access -h"] ∧
    (fldd_main ["fldd", "-?"] ⟨fun _ => false, -1, none⟩).exitCode = 1 ∧
    (fldd_main ["fldd", "-h"] ⟨fun _ => true, -1, none⟩).exitCode = 0 ∧
    (fldd_main ["fldd", "-h"] ⟨fun _ => true, -1, none⟩).usagePrinted = true ∧
    (fldd_main ["fldd", "--help"] ⟨fun _ => false, -1, none⟩).exitCode = 0 ∧
    (fldd_main ["fldd", "--help"] ⟨fun _ => false, -1, none⟩).usagePrinted = true := by
  decide

/-- C7 (evaluating the code at the failing input): `open` reports failure by
returning -1, but main.c 292 tests `if (!fd)`, which only catches a return
of exactly 0 — so when the output file cannot be created the program does
not print usage or exit 1; it proceeds, hands the invalid descriptor -1 to
`storage_print`, and exits 0.  (With a successful open the claimed
behaviour does hold: the file is opened with mode 0644, receives the
output, and is closed.) -/
theorem C7_output_open_failure_ignored :
    (fldd_main ["fldd", "/bin/p", "/bad/out"] ⟨fun _ => true, -1, none⟩).exitCode = 0 ∧
    (fldd_main ["fldd", "/bin/p", "/bad/out"] ⟨fun _ => true, -1, none⟩).usagePrinted = false ∧
    (fldd_main ["fldd", "/bin/p", "/bad/out"] ⟨fun _ => true, -1, none⟩).outFd = -1 ∧
    (fldd_main ["fldd", "/bin/p", "/bad/out"] ⟨fun _ => true, -1, none⟩).ranResolver = true ∧
    (fldd_main ["fldd", "/bin/p", "/tmp/out"] ⟨fun _ => true, 5, none⟩).openedOut =
      some ("/tmp/out", 0o644) ∧
    (fldd_main ["fldd", "/bin/p", "/tmp/out"] ⟨fun _ => true, 5, none⟩).outFd = 5 ∧
    (fldd_main ["fldd", "/bin/p", "/tmp/out"] ⟨fun _ => true, 5, none⟩).closedOut = true ∧
    (fldd_main ["fldd", "/bin/p", "/tmp/out"] ⟨fun _ => true, 5, none⟩).exitCode = 0 := by
  decide

/-- C8 counterexample: with quiet mode on, a file whose `mmap` (or `fstat`)
fails still produces a diagnostic — the `perror("copy libs")` at main.c 209
sits on the `error_close` path and is not guarded by `arg_quiet` — although
the claim says every recoverable failure (explicitly including a file that
cannot be mapped) produces no diagnostic output under quiet mode. -/
theorem C8_quiet_emits_perror_on_mmap_failure :
    emittedDiags true (copy_libs_for_exe_scan "x" true true false [] ScanSt.init) =
      [Diag.perrorCopyLibs] ∧
    emittedDiags true (copy_libs_for_exe_scan "x" true false true [] ScanSt.init) =
      [Diag.perrorCopyLibs] := by decide

/-- C8 amended: quiet mode changes nothing about the scan itself (same
events, reads, exit-relevant state — the dependency list is unaffected) and
only filters what is printed: under quiet mode exactly the unguarded
`perror` diagnostics survive, while the guarded warnings (cannot open, not
an ELF image, bad pointer) are suppressed; `main`'s exit code and whether
the resolver runs are likewise independent of the quiet variable. -/
theorem C8_amended_quiet_behavior :
    (∀ (quiet : Bool) (exe : String) (oo fo mo : Bool) (f : List Nat)
        (st : ScanSt),
        (scanWithQuiet quiet exe oo fo mo f st).1 =
          (scanWithQuiet false exe oo fo mo f st).1) ∧
    (∀ st : ScanSt, emittedDiags true st = (emittedDiags false st).filter isPerror) ∧
    (scanWithQuiet true "x" false true true [] ScanSt.init).2 = [] ∧
    (scanWithQuiet false "x" false true true [] ScanSt.init).2 =
      [Diag.warnOpen "x"] ∧
    (scanWithQuiet true "x" true true true [1, 2, 3] ScanSt.init).2 = [] ∧
    (scanWithQuiet false "x" true true true [1, 2, 3] ScanSt.init).2 =
      [Diag.warnNotElf "x"] ∧
    (scanWithQuiet true "x" true true true fC8bad ScanSt.init).2 = [] ∧
    (scanWithQuiet false "x" true true true fC8bad ScanSt.init).2 =
      [Diag.warnBadPtr "sbuf" "x"] ∧
    (∀ (argv : List String) (acc : String → Bool) (oret : Int),
        (fldd_main argv ⟨acc, oret, some "yes"⟩).exitCode =
          (fldd_main argv ⟨acc, oret, none⟩).exitCode ∧
        (fldd_main argv ⟨acc, oret, some "yes"⟩).ranResolver =
          (fldd_main argv ⟨acc, oret, none⟩).ranResolver) := by
  refine ⟨fun quiet exe oo fo mo f st => rfl,
    fun st => by simp [emittedDiags],
    by decide, by decide, by decide, by decide, by decide, by decide, ?_⟩
  intro argv acc oret
  unfold fldd_main
  dsimp only []
  split_ifs <;> exact ⟨rfl, rfl⟩
